import Mathlib

/-!
Shallow embedding of `src/vs/workbench/browser/parts/editor/sideBySideEditor.ts`
(class `SideBySideEditor`).

The host state mirrors the nullable fields of the class (`input`, `detailsEditor`,
`masterEditor`, `detailsEditorContainer`, `masterEditorContainer`, the sash
position, plus a fresh-id counter used to name allocated editors/containers).
Descriptors (`EditorInput` contents) are opaque naturals; editors and DOM
containers are identified by naturals. Side effects (dispose, container
add/remove, child `setInput`, commit) are recorded in an event trace.

Asynchrony: a non-matching `setInput` runs a synchronous prefix
(`disposeEditors`, `createEditorContainers`, and the synchronous registry
lookup at the head of `_createEditor`) and returns a `Pending` value for the
suspended remainder (instantiation, `editor.create`, the own `setInput` of
the child, and `TPromise.join` + `onEditorsCreated`). `resolvePending`
applies that remainder to whatever host state holds at resolution time,
which models the JS closures over `this`.
-/

deriving instance DecidableEq for Except

namespace SideBySide

/-- Opaque content descriptor (an `EditorInput` for one pane). -/
abbrev Desc := Nat

/-- The input pair of a `SideBySideEditorInput`: a details descriptor and a
master descriptor. -/
structure SideBySideEditorInput where
  details : Desc
  master : Desc
deriving DecidableEq, Repr

/-- Modelled from the spec: `SideBySideEditorInput.matches` lives in
`vs/workbench/common/editor`, outside this unit; the spec states it is value
equality, and `matches(null)` is false. -/
def matchesInput (newInput : SideBySideEditorInput)
    (oldInput : Option SideBySideEditorInput) : Bool :=
  match oldInput with
  | none => false
  | some o => newInput = o

/-- The nullable fields of the `SideBySideEditor` class, plus a counter that
names freshly allocated editors and containers. -/
structure Host where
  input : Option SideBySideEditorInput
  detailsEditor : Option Nat
  masterEditor : Option Nat
  detailsEditorContainer : Option Nat
  masterEditorContainer : Option Nat
  sashPosition : Int
  nextId : Nat
deriving DecidableEq, Repr

/-- Host right after `createEditor`: no input, no children, no child
containers; the sash is created with minimum offset 220 (`new VSash(parent,
220)`). -/
def initialHost : Host :=
  { input := none, detailsEditor := none, masterEditor := none,
    detailsEditorContainer := none, masterEditorContainer := none,
    sashPosition := 220, nextId := 0 }

/-- Observable side effects of the host, in program order. -/
inductive Event where
  | disposeEditor (id : Nat)
  | removeContainer (id : Nat)
  | createContainer (id : Nat)
  | instantiateEditor (id : Nat) (desc : Desc)
  | attachEditor (id : Nat) (container : Option Nat)
  | childSetInput (editor : Option Nat) (desc : Desc) (withOptions : Bool)
  | commitEditors (detailsId : Nat) (masterId : Nat)
deriving DecidableEq, Repr

/-- External collaborators: the editor registry (`Registry.getEditor` finds a
descriptor or not) and the outcome of the asynchronous child `setInput`
delivery for a given descriptor. -/
structure Env where
  registered : Desc → Bool
  childSetInputOk : Desc → Bool

/-- Errors a `setInput` can fail with: the wrapError of `_createEditor` when no
editor is registered for a descriptor, or a rejection from the own `setInput` of the child. -/
inductive Err where
  | noHandler (desc : Desc)
  | childSetInputFailed (desc : Desc)
deriving DecidableEq, Repr

/-- `disposeEditors`, mirrored branch by branch. The master branch sets
`this.detailsEditor = null` (source line 169) — it never nulls
`this.masterEditor`; the model reproduces that assignment as written. -/
def disposeEditors (h : Host) : Host × List Event :=
  let s1 : Host × List Event :=
    match h.detailsEditor with
    | some d => ({ h with detailsEditor := none }, [Event.disposeEditor d])
    | none => (h, [])
  let s2 : Host × List Event :=
    match s1.1.masterEditor with
    | some m => ({ s1.1 with detailsEditor := none }, s1.2 ++ [Event.disposeEditor m])
    | none => s1
  let s3 : Host × List Event :=
    match s2.1.detailsEditorContainer with
    | some c => ({ s2.1 with detailsEditorContainer := none }, s2.2 ++ [Event.removeContainer c])
    | none => s2
  match s3.1.masterEditorContainer with
  | some c => ({ s3.1 with masterEditorContainer := none }, s3.2 ++ [Event.removeContainer c])
  | none => s3

/-- `createEditorContainers`: appends two fresh absolutely-positioned child
containers (details first, then master) to the parent. -/
def createEditorContainers (h : Host) : Host × List Event :=
  let dc := h.nextId
  let mc := h.nextId + 1
  ({ h with detailsEditorContainer := some dc, masterEditorContainer := some mc,
            nextId := h.nextId + 2 },
   [Event.createContainer dc, Event.createContainer mc])

/-- The suspended remainder of one `_createEditor` call: either the
immediately-rejected promise (`TPromise.wrapError`, no registered editor), or
the chain instantiate → `editor.create(container)` → `editor.setInput`. The
container reference and the prospective editor id are captured at launch. -/
inductive SideSpec where
  | noHandler (desc : Desc)
  | create (desc : Desc) (container : Option Nat) (editorId : Nat) (withOptions : Bool)
deriving DecidableEq, Repr

/-- The synchronous head of `_createEditor`: the registry lookup. A missing
descriptor yields the wrapped error; otherwise the remainder is suspended.
(The editor id is pre-allocated here purely as a name for the instance the
resolution will produce.) -/
def createEditorStart (env : Env) (desc : Desc) (container : Option Nat)
    (editorId : Nat) (withOptions : Bool) : SideSpec :=
  if env.registered desc then SideSpec.create desc container editorId withOptions
  else SideSpec.noHandler desc

/-- Resolution of one side: instantiate the editor, `editor.create` into the
captured container, deliver the descriptor via the own `setInput` of the child;
the promise yields the editor, or the rejection of the child. Note that on a
child-`setInput` rejection the editor was already created and attached. -/
def createEditorResolve (env : Env) (spec : SideSpec) : Except Err Nat × List Event :=
  match spec with
  | SideSpec.noHandler d => (Except.error (Err.noHandler d), [])
  | SideSpec.create d c eid wo =>
      let evs := [Event.instantiateEditor eid d, Event.attachEditor eid c,
                  Event.childSetInput (some eid) d wo]
      if env.childSetInputOk d then (Except.ok eid, evs)
      else (Except.error (Err.childSetInputFailed d), evs)

/-- The two in-flight `_createEditor` promises joined by `setNewInput`. -/
structure Pending where
  detailsSpec : SideSpec
  masterSpec : SideSpec
deriving DecidableEq, Repr

/-- `setNewInput`: launches `_createEditor` for the details side (no options)
and the master side (with options) against the current container fields. -/
def setNewInput (env : Env) (h : Host) (newInput : SideBySideEditorInput) :
    Host × Pending :=
  let dId := h.nextId
  let mId := h.nextId + 1
  ({ h with nextId := h.nextId + 2 },
   { detailsSpec := createEditorStart env newInput.details h.detailsEditorContainer dId false,
     masterSpec := createEditorStart env newInput.master h.masterEditorContainer mId true })

/-- `onEditorsCreated`: assigns both editor fields unconditionally — the
source performs no staleness/generation check before committing — then makes
them visible, lays them out and focuses the master. -/
def onEditorsCreated (h : Host) (detailsId masterId : Nat) : Host × List Event :=
  ({ h with detailsEditor := some detailsId, masterEditor := some masterId },
   [Event.commitEditors detailsId masterId])

/-- Modelled from the spec: `TPromise.join` (WinJS, outside this unit) — the
joined promise succeeds when both members succeed and otherwise rejects with
the error of a member; it does not dispose the value of the other member. On joint
success the code runs `onEditorsCreated` against the current `this`. -/
def resolvePending (env : Env) (h : Host) (p : Pending) :
    Host × List Event × Except Err Unit :=
  let dRes := createEditorResolve env p.detailsSpec
  let mRes := createEditorResolve env p.masterSpec
  match dRes.1, mRes.1 with
  | Except.ok dId, Except.ok mId =>
      let c := onEditorsCreated h dId mId
      (c.1, dRes.2 ++ mRes.2 ++ c.2, Except.ok ())
  | Except.error e, _ => (h, dRes.2 ++ mRes.2, Except.error e)
  | Except.ok _, Except.error e => (h, dRes.2 ++ mRes.2, Except.error e)

/-- Immediate outcome of `setInput`/`updateInput`: the reuse branch delivers
`setInput` to the existing children but discards their promises (the branch
returns `undefined`, so the promise of the host resolves successfully; the two
discarded child outcomes are recorded for inspection), or the non-matching
branch leaves a `Pending` creation in flight. -/
inductive SetInputStart where
  | reused (hostResult : Except Err Unit)
      (discardedDetails discardedMaster : Except Err Unit)
  | creating (p : Pending)
deriving DecidableEq, Repr

/-- `updateInput`: non-matching input disposes the old editors (when an old
input exists), creates fresh containers and launches `setNewInput`; a
matching input is delivered straight to the existing children — details
first without options, master second with the options. -/
def updateInput (env : Env) (h : Host) (oldInput : Option SideBySideEditorInput)
    (newInput : SideBySideEditorInput) : Host × List Event × SetInputStart :=
  if matchesInput newInput oldInput then
    (h, [Event.childSetInput h.detailsEditor newInput.details false,
         Event.childSetInput h.masterEditor newInput.master true],
     SetInputStart.reused (Except.ok ())
       (if env.childSetInputOk newInput.details then Except.ok ()
        else Except.error (Err.childSetInputFailed newInput.details))
       (if env.childSetInputOk newInput.master then Except.ok ()
        else Except.error (Err.childSetInputFailed newInput.master)))
  else
    let s1 := if oldInput.isSome then disposeEditors h else (h, [])
    let s2 := createEditorContainers s1.1
    let s3 := setNewInput env s2.1 newInput
    (s3.1, s1.2 ++ s2.2, SetInputStart.creating s3.2)

/-- `setInput`: captures the old input, records the new one (modelled from
the spec: `super.setInput` in `BaseEditor` stores the input and resolves),
then runs `updateInput`. -/
def setInput (env : Env) (h : Host) (newInput : SideBySideEditorInput) :
    Host × List Event × SetInputStart :=
  updateInput env { h with input := some newInput } h.input newInput

/-- `clearInput`: `disposeEditors` then `super.clearInput` (modelled from the
spec: the base class clears the stored input). -/
def clearInput (h : Host) : Host × List Event :=
  let s := disposeEditors h
  ({ s.1 with input := none }, s.2)

/-- Container size handed to `layout`. -/
structure Dimension where
  width : Int
  height : Int
deriving DecidableEq, Repr

/-- An absolutely positioned child region: `left`/`width` styles plus the
shared height. -/
structure Region where
  left : Int
  width : Int
  height : Int
deriving DecidableEq, Repr

/-- The geometry of `dolayout` for a given dimension and sash split point
(the source returns early when either editor is absent; the geometry below
is what it applies in the `Ready` case): details region then master
region. -/
def dolayout (dim : Dimension) (splitPoint : Int) : Region × Region :=
  let masterEditorWidth := dim.width - splitPoint
  let detailsEditorWidth := dim.width - masterEditorWidth
  ({ left := 0, width := detailsEditorWidth, height := dim.height },
   { left := splitPoint, width := masterEditorWidth, height := dim.height })

/-- Runs a sequence of `setInput` calls, threading the host and concatenating
the event traces (any in-flight creations are left unresolved). -/
def setInputSeq (env : Env) (h : Host) :
    List SideBySideEditorInput → Host × List Event
  | [] => (h, [])
  | i :: rest =>
      let s := setInput env h i
      let r := setInputSeq env s.1 rest
      (r.1, s.2.1 ++ r.2)

/-- Every input in the sequence matches the current input of the host at the point
it is delivered. -/
def allMatchingSeq (env : Env) (h : Host) : List SideBySideEditorInput → Bool
  | [] => true
  | i :: rest => matchesInput i h.input && allMatchingSeq env (setInput env h i).1 rest
/-- Extracts the in-flight creation of a `creating` outcome (dummy pending
for the reuse branch, which leaves nothing in flight). -/
def pendingOf (s : SetInputStart) : Pending :=
  match s with
  | SetInputStart.creating p => p
  | SetInputStart.reused _ _ _ =>
      { detailsSpec := SideSpec.noHandler 0, masterSpec := SideSpec.noHandler 0 }

/-- Collaborators in which every descriptor has a registered editor and every
child `setInput` succeeds. -/
def envAll : Env := { registered := fun _ => true, childSetInputOk := fun _ => true }

/-- Collaborators in which every descriptor is registered but the child
`setInput` delivery for descriptor 1 rejects. -/
def envMasterChildFails : Env :=
  { registered := fun _ => true, childSetInputOk := fun d => decide (d ≠ 1) }

/-- Collaborators in which descriptor 5 has no registered editor. -/
def envNoHandlerFor5 : Env :=
  { registered := fun d => decide (d ≠ 5), childSetInputOk := fun _ => true }

/-- First input pair: details descriptor 0, master descriptor 1. -/
def inputA : SideBySideEditorInput := { details := 0, master := 1 }

/-- A second, non-matching input pair: details descriptor 2, master descriptor 3. -/
def inputB : SideBySideEditorInput := { details := 2, master := 3 }

/-- Race schedule, step 1: `setInput(inputA)` on the fresh host. -/
def raceStartA : Host × List Event × SetInputStart := setInput envAll initialHost inputA

/-- The in-flight creation launched for `inputA` (editors 2 and 3 into
containers 0 and 1). -/
def racePendingA : Pending := pendingOf raceStartA.2.2

/-- Race schedule, step 2: `setInput(inputB)` arrives while the creation for
`inputA` is still in flight. -/
def raceStartB : Host × List Event × SetInputStart := setInput envAll raceStartA.1 inputB

/-- The in-flight creation launched for `inputB` (editors 6 and 7 into
containers 4 and 5). -/
def racePendingB : Pending := pendingOf raceStartB.2.2

/-- Race schedule, step 3: the creation for `inputB` resolves first and
commits editors 6 and 7. -/
def raceAfterB : Host × List Event × Except Err Unit :=
  resolvePending envAll raceStartB.1 racePendingB

/-- Race schedule, step 4: the stale creation for `inputA` resolves last,
against the host state left by step 3. -/
def raceFinal : Host × List Event × Except Err Unit :=
  resolvePending envAll raceAfterB.1 racePendingA

/-- Full event trace of the racing schedule, in execution order. -/
def raceTrace : List Event :=
  raceStartA.2.1 ++ raceStartB.2.1 ++ raceAfterB.2.1 ++ raceFinal.2.1

/-- A `Ready` host reached by one completed `setInput(inputA)` from the fresh
host: editors 2 (details) and 3 (master) committed, containers 0 and 1. -/
def readyHostA : Host := (resolvePending envAll raceStartA.1 racePendingA).1

/-- First teardown (`clearInput`) from the `Ready` host. -/
def tearOnce : Host × List Event := clearInput readyHostA

/-- Second teardown, immediately after the first. -/
def tearTwice : Host × List Event := clearInput tearOnce.1

/-- Partial-failure run: from the fresh host, `setInput(inputA)` where the
details child succeeds and the master child `setInput` rejects. -/
def partialStart : Host × List Event × SetInputStart :=
  setInput envMasterChildFails initialHost inputA

/-- Resolution of the partial-failure run. -/
def partialRes : Host × List Event × Except Err Unit :=
  resolvePending envMasterChildFails partialStart.1 (pendingOf partialStart.2.2)

/-- No-handler run, step 1: reach `Ready` with `inputA` under
`envNoHandlerFor5`. -/
def nhStart : Host × List Event × SetInputStart := setInput envNoHandlerFor5 initialHost inputA

/-- The `Ready` host of the no-handler run: editors 2 and 3 committed. -/
def nhReady : Host := (resolvePending envNoHandlerFor5 nhStart.1 (pendingOf nhStart.2.2)).1

/-- No-handler run, step 2: a non-matching `setInput` whose master descriptor
5 has no registered editor. -/
def nhSwap : Host × List Event × SetInputStart :=
  setInput envNoHandlerFor5 nhReady { details := 4, master := 5 }

/-- Resolution of the failing creation of the no-handler run. -/
def nhRes : Host × List Event × Except Err Unit :=
  resolvePending envNoHandlerFor5 nhSwap.1 (pendingOf nhSwap.2.2)

/-- Reuse-path run: deliver the already-current `inputA` to the `Ready` host
while the master child `setInput` delivery rejects. -/
def reuseChildFail : Host × List Event × SetInputStart :=
  setInput envMasterChildFails readyHostA inputA

/-- True exactly on `childSetInput` events (input delivery to an existing
child); dispose, container-removal and creation events are excluded. -/
def isChildSetInput : Event → Bool
  | Event.childSetInput _ _ _ => true
  | _ => false

/-- Helper: a matching `setInput` takes the reuse branch, leaves the host
unchanged, delivers the input to the existing children (details first,
without options; master second, with options), and resolves the host promise
successfully while the two child outcomes are discarded. -/
theorem setInput_matching (env : Env) (h : Host) (i : SideBySideEditorInput)
    (hm : matchesInput i h.input = true) :
    setInput env h i =
      (h, [Event.childSetInput h.detailsEditor i.details false,
           Event.childSetInput h.masterEditor i.master true],
       SetInputStart.reused (Except.ok ())
         (if env.childSetInputOk i.details then Except.ok ()
          else Except.error (Err.childSetInputFailed i.details))
         (if env.childSetInputOk i.master then Except.ok ()
          else Except.error (Err.childSetInputFailed i.master))) := by
  obtain ⟨inp, de, me, dc, mc, sp, ni⟩ := h
  cases inp with
  | none => simp [matchesInput] at hm
  | some o =>
      have hio : i = o := by simpa [matchesInput] using hm
      subst hio
      simp [setInput, updateInput, matchesInput]

/-- Helper: resolving an in-flight creation never emits a dispose event and
never moves the sash, whatever the host state at resolution time. -/
theorem resolvePending_noDispose (env : Env) (h : Host) (p : Pending) :
    (resolvePending env h p).1.sashPosition = h.sashPosition ∧
    ∀ x, Event.disposeEditor x ∉ (resolvePending env h p).2.1 := by
  obtain ⟨ds, ms⟩ := p
  cases ds <;> cases ms <;>
    simp only [resolvePending, createEditorResolve, onEditorsCreated] <;>
    (try split_ifs) <;>
    simp [onEditorsCreated]

/-- Helper: a non-matching `setInput` leaves a creation in flight that
targets the two freshly created containers (ids `nextId`, `nextId + 1`) with
editor ids allocated after them; the details side is launched without
options and the master side with options. -/
theorem setInput_nonmatching_start (env : Env) (h : Host) (i : SideBySideEditorInput)
    (hnm : matchesInput i h.input = false) :
    (setInput env h i).2.2 = SetInputStart.creating
      { detailsSpec := createEditorStart env i.details (some h.nextId) (h.nextId + 2) false,
        masterSpec := createEditorStart env i.master (some (h.nextId + 1)) (h.nextId + 3) true } := by
  obtain ⟨inp, de, me, dc, mc, sp, ni⟩ := h
  simp only at hnm
  cases inp <;> cases de <;> cases me <;> cases dc <;> cases mc <;>
    simp_all [setInput, updateInput, disposeEditors, createEditorContainers, setNewInput]

/-- C1: code-bug exhibit. Schedule: `setInput(inputA)`, then `setInput(inputB)`
(non-matching) while the creation for A is in flight; the creation for B
resolves first and commits editors 6/7; then the stale creation for A
resolves. The claim (and the spec generation guard) says the stale result is
discarded and its components disposed, never committed. The code instead
commits the stale editors 2/3 over the committed pair — `onEditorsCreated`
performs no generation check — and no dispose of editors 2 or 3 (nor of the
displaced 6 or 7) appears anywhere in the trace. -/
theorem c1_staleCreationCommitted :
    raceAfterB.1.detailsEditor = some 6 ∧ raceAfterB.1.masterEditor = some 7 ∧
    raceFinal.1.input = some inputB ∧
    raceFinal.1.detailsEditor = some 2 ∧ raceFinal.1.masterEditor = some 3 ∧
    Event.commitEditors 2 3 ∈ raceTrace ∧
    Event.disposeEditor 2 ∉ raceTrace ∧ Event.disposeEditor 3 ∉ raceTrace ∧
    Event.disposeEditor 6 ∉ raceTrace ∧ Event.disposeEditor 7 ∉ raceTrace := by
  decide

/-- C2: the layout pass computes `masterWidth = width - splitOffset` and
`detailWidth = width - masterWidth`, assigns the details region
`(left 0, detailWidth, height)` and the master region
`(left splitOffset, masterWidth, height)`, the two widths sum exactly to the
container width, and for width 800, height 600, split 220 the regions are
details `(0, 220, 600)` and master `(220, 580, 600)`. -/
theorem c2_layoutGeometry :
    (∀ (dim : Dimension) (splitOffset : Int),
      dolayout dim splitOffset =
        ({ left := 0, width := dim.width - (dim.width - splitOffset), height := dim.height },
         { left := splitOffset, width := dim.width - splitOffset, height := dim.height }) ∧
      (dolayout dim splitOffset).1.width + (dolayout dim splitOffset).2.width = dim.width) ∧
    dolayout { width := 800, height := 600 } 220 =
      ({ left := 0, width := 220, height := 600 },
       { left := 220, width := 580, height := 600 }) := by
  refine ⟨fun dim s => ⟨rfl, ?_⟩, by decide⟩
  show dim.width - (dim.width - s) + (dim.width - s) = dim.width
  omega

/-- C8: code-bug exhibit. From the `Ready` host (editors 2 and 3 committed),
one teardown disposes editor 3 but leaves `masterEditor` still set to 3 —
the master branch of `disposeEditors` nulls `detailsEditor` again (source
line 169) instead of `masterEditor`. The slots are not emptied together and
the disposed master remains reachable through its slot, contrary to the
claim. -/
theorem c8_masterReferenceSurvivesTeardown :
    readyHostA.detailsEditor = some 2 ∧ readyHostA.masterEditor = some 3 ∧
    Event.disposeEditor 3 ∈ tearOnce.2 ∧
    tearOnce.1.detailsEditor = none ∧
    tearOnce.1.masterEditor = some 3 := by
  decide

/-- C9: code-bug exhibit. Tearing down twice from the `Ready` host disposes
the master editor 3 twice — the stale `masterEditor` reference left by the
first teardown (source line 169) is disposed again by the second — while the
details editor and both containers are torn down exactly once. The claim
says each child is disposed at most once. -/
theorem c9_doubleDisposeOnSecondTeardown :
    (tearOnce.2 ++ tearTwice.2).count (Event.disposeEditor 3) = 2 ∧
    (tearOnce.2 ++ tearTwice.2).count (Event.disposeEditor 2) = 1 ∧
    (tearOnce.2 ++ tearTwice.2).count (Event.removeContainer 0) = 1 ∧
    (tearOnce.2 ++ tearTwice.2).count (Event.removeContainer 1) = 1 := by
  decide

/-- C3: for every sequence of `setInput` calls in which each new input pair
matches the current one, the host state is unchanged after the whole
sequence (children neither disposed nor recreated, no new containers, still
`Ready`), and every emitted event is an input delivery to an existing
child. -/
theorem c3_matchingSequenceReuses (env : Env) (h : Host)
    (inputs : List SideBySideEditorInput)
    (hall : allMatchingSeq env h inputs = true) :
    (setInputSeq env h inputs).1 = h ∧
    (setInputSeq env h inputs).2.all isChildSetInput = true := by
  induction inputs generalizing h with
  | nil => exact ⟨rfl, rfl⟩
  | cons i rest ih =>
      rw [allMatchingSeq, Bool.and_eq_true] at hall
      obtain ⟨h1, h2⟩ := hall
      have hstep := setInput_matching env h i h1
      rw [hstep] at h2
      have ihr := ih h h2
      simp only [setInputSeq]
      rw [hstep]
      refine ⟨ihr.1, ?_⟩
      simp [List.all_append, isChildSetInput, ihr.2]

/-- Witness for C3: from the `Ready` host, delivering the already-current
`inputA` twice is a matching sequence, leaves the host unchanged, and emits
only child input deliveries. -/
theorem c3_witness :
    allMatchingSeq envAll readyHostA [inputA, inputA] = true ∧
    (setInputSeq envAll readyHostA [inputA, inputA]).1 = readyHostA ∧
    (setInputSeq envAll readyHostA [inputA, inputA]).2.all isChildSetInput = true := by
  have hc := c3_matchingSequenceReuses envAll readyHostA [inputA, inputA] (by decide)
  exact ⟨by decide, hc.1, hc.2⟩

/-- C10: on the matching-input reuse path the two children are updated
asymmetrically: the details child receives `setInput` first and without the
options argument, then the master child receives it with the options. -/
theorem c10_reusePathAsymmetry (env : Env) (h : Host) (i : SideBySideEditorInput)
    (hm : matchesInput i h.input = true) :
    (setInput env h i).2.1 =
      [Event.childSetInput h.detailsEditor i.details false,
       Event.childSetInput h.masterEditor i.master true] := by
  rw [setInput_matching env h i hm]

/-- Witness for C10: on the `Ready` host with current `inputA`, the reuse
trace is exactly details-without-options then master-with-options. -/
theorem c10_witness :
    matchesInput inputA readyHostA.input = true ∧
    (setInput envAll readyHostA inputA).2.1 =
      [Event.childSetInput (some 2) 0 false,
       Event.childSetInput (some 3) 1 true] := by
  refine ⟨by decide, ?_⟩
  rw [c10_reusePathAsymmetry envAll readyHostA inputA (by decide)]
  decide

/-- C4: a non-matching `setInput` while children exist synchronously disposes
exactly the old details and old master editors, in that order, before the
old containers are removed and the fresh containers are created; the
creation itself is only launched afterwards (it is still pending when the
synchronous prefix returns) and its later resolution emits no dispose; the
sash offset is untouched by both the synchronous prefix and the
resolution. -/
theorem c4_disposeBeforeCreate (env : Env) (h : Host)
    (old i : SideBySideEditorInput) (d m cd cm : Nat)
    (hin : h.input = some old)
    (hde : h.detailsEditor = some d) (hme : h.masterEditor = some m)
    (hdc : h.detailsEditorContainer = some cd) (hmc : h.masterEditorContainer = some cm)
    (hnm : matchesInput i h.input = false) :
    (setInput env h i).2.1 =
      [Event.disposeEditor d, Event.disposeEditor m,
       Event.removeContainer cd, Event.removeContainer cm,
       Event.createContainer h.nextId, Event.createContainer (h.nextId + 1)] ∧
    (setInput env h i).1.sashPosition = h.sashPosition ∧
    (setInput env h i).2.2 = SetInputStart.creating
      { detailsSpec := createEditorStart env i.details (some h.nextId) (h.nextId + 2) false,
        masterSpec := createEditorStart env i.master (some (h.nextId + 1)) (h.nextId + 3) true } ∧
    ∀ h2 : Host,
      (resolvePending env h2 (pendingOf (setInput env h i).2.2)).1.sashPosition =
        h2.sashPosition ∧
      ∀ x, Event.disposeEditor x ∉
        (resolvePending env h2 (pendingOf (setInput env h i).2.2)).2.1 := by
  obtain ⟨inp, de, me, dcv, mcv, sp, ni⟩ := h
  dsimp only at hin hde hme hdc hmc hnm
  subst hin hde hme hdc hmc
  refine ⟨?_, ?_, ?_, fun h2 => resolvePending_noDispose env h2 _⟩ <;>
    simp [setInput, updateInput, hnm, disposeEditors, createEditorContainers, setNewInput]

/-- Witness for C4: the `Ready` host with current `inputA` receiving the
non-matching `inputB`: editors 2 and 3 are disposed first, containers 0 and
1 removed, fresh containers 4 and 5 created, and the sash offset is
preserved. -/
theorem c4_witness :
    (setInput envAll readyHostA inputB).2.1 =
      [Event.disposeEditor 2, Event.disposeEditor 3,
       Event.removeContainer 0, Event.removeContainer 1,
       Event.createContainer 4, Event.createContainer 5] ∧
    (setInput envAll readyHostA inputB).1.sashPosition = readyHostA.sashPosition := by
  have hc := c4_disposeBeforeCreate envAll readyHostA inputA inputB 2 3 0 1
    (by decide) (by decide) (by decide) (by decide) (by decide) (by decide)
  refine ⟨?_, hc.2.1⟩
  rw [hc.1]
  decide

/-- C5 counterexample: in the partial-failure run (details child succeeds as
editor 2 and is attached to container 0; the master child `setInput` for
descriptor 1 rejects) the overall `setInput` fails with the failing side
error, yet editor 2 is never disposed anywhere in the run — the disposal of
the succeeded sibling required by the claim does not happen. -/
theorem c5_counterexample :
    partialRes.2.2 = Except.error (Err.childSetInputFailed 1) ∧
    Event.attachEditor 2 (some 0) ∈ partialRes.2.1 ∧
    Event.disposeEditor 2 ∉ partialStart.2.1 ++ partialRes.2.1 ∧
    partialRes.1.detailsEditor = none ∧ partialRes.1.masterEditor = none := by
  decide

/-- C5 (amended): when the details side succeeds and the master child
`setInput` rejects, the whole `setInput` fails with the failing side error
and no pair is committed (the host state is untouched by the resolution) —
but the succeeded sibling is not disposed: it stays created and attached to
its container, leaked. -/
theorem c5_partialFailureLeaksSibling (env : Env) (h : Host) (p : Pending)
    (dd dm : Desc) (cd cm : Option Nat) (ed em : Nat) (wd wm : Bool)
    (hd : p.detailsSpec = SideSpec.create dd cd ed wd)
    (hm : p.masterSpec = SideSpec.create dm cm em wm)
    (hok : env.childSetInputOk dd = true)
    (hfail : env.childSetInputOk dm = false) :
    resolvePending env h p =
      (h, [Event.instantiateEditor ed dd, Event.attachEditor ed cd,
           Event.childSetInput (some ed) dd wd,
           Event.instantiateEditor em dm, Event.attachEditor em cm,
           Event.childSetInput (some em) dm wm],
       Except.error (Err.childSetInputFailed dm)) ∧
    ∀ x, Event.disposeEditor x ∉ (resolvePending env h p).2.1 := by
  obtain ⟨ds, ms⟩ := p
  dsimp only at hd hm
  subst hd hm
  constructor
  · simp [resolvePending, createEditorResolve, hok, hfail]
  · exact (resolvePending_noDispose env h _).2

/-- Witness for C5: the amended statement applied to the concrete
partial-failure pending (editors 2 and 3, containers 0 and 1, master
descriptor 1 failing). -/
theorem c5_witness :
    resolvePending envMasterChildFails partialStart.1
        { detailsSpec := SideSpec.create 0 (some 0) 2 false,
          masterSpec := SideSpec.create 1 (some 1) 3 true } =
      (partialStart.1,
       [Event.instantiateEditor 2 0, Event.attachEditor 2 (some 0),
        Event.childSetInput (some 2) 0 false,
        Event.instantiateEditor 3 1, Event.attachEditor 3 (some 1),
        Event.childSetInput (some 3) 1 true],
       Except.error (Err.childSetInputFailed 1)) := by
  exact (c5_partialFailureLeaksSibling envMasterChildFails partialStart.1
    { detailsSpec := SideSpec.create 0 (some 0) 2 false,
      masterSpec := SideSpec.create 1 (some 1) 3 true }
    0 1 (some 0) (some 1) 2 3 false true rfl rfl (by decide) (by decide)).1

/-- C6 counterexample: under `envNoHandlerFor5`, from the `Ready` host showing
the committed pair (editors 2 and 3), a non-matching `setInput` whose master
descriptor 5 has no registered editor fails with the no-handler error as the
claim says — but the host does not remain in its prior committed state: the
previously shown pair was already disposed during the synchronous prefix of
the failing call, and the details slot ends empty. -/
theorem c6_counterexample :
    nhReady.detailsEditor = some 2 ∧ nhReady.masterEditor = some 3 ∧
    nhRes.2.2 = Except.error (Err.noHandler 5) ∧
    Event.disposeEditor 2 ∈ nhSwap.2.1 ∧ Event.disposeEditor 3 ∈ nhSwap.2.1 ∧
    nhRes.1.detailsEditor = none := by
  decide

/-- C6 (amended): when the master descriptor has no registered editor (and
the details side would succeed), the per-side creation fails with the
no-handler error rather than producing a component, the overall `setInput`
fails asynchronously with that error, no pair is ever committed for that
generation and the resolution leaves the host untouched — but a previously
shown pair does not remain: it is disposed during the synchronous prefix of
the non-matching call, before creation is attempted. -/
theorem c6_noHandlerFailsSetInput (env : Env) (h h2 : Host) (i : SideBySideEditorInput)
    (hnm : matchesInput i h.input = false)
    (hdreg : env.registered i.details = true)
    (hdok : env.childSetInputOk i.details = true)
    (hmreg : env.registered i.master = false) :
    ∃ p, (setInput env h i).2.2 = SetInputStart.creating p ∧
      (resolvePending env h2 p).1 = h2 ∧
      (resolvePending env h2 p).2.2 = Except.error (Err.noHandler i.master) ∧
      ∀ a b, Event.commitEditors a b ∉ (resolvePending env h2 p).2.1 := by
  refine ⟨_, setInput_nonmatching_start env h i hnm, ?_, ?_, ?_⟩ <;>
    simp [resolvePending, createEditorResolve, createEditorStart, hdreg, hdok, hmreg]

/-- Witness for C6: the amended statement applied to the no-handler run (the
`Ready` host under `envNoHandlerFor5`, new input with unregistered master
descriptor 5). -/
theorem c6_witness :
    matchesInput { details := 4, master := 5 } nhReady.input = false ∧
    ∃ p, (setInput envNoHandlerFor5 nhReady { details := 4, master := 5 }).2.2 =
        SetInputStart.creating p ∧
      (resolvePending envNoHandlerFor5 nhSwap.1 p).2.2 =
        Except.error (Err.noHandler 5) := by
  refine ⟨by decide, ?_⟩
  obtain ⟨p, h1, _, h3, _⟩ := c6_noHandlerFailsSetInput envNoHandlerFor5 nhReady nhSwap.1
    { details := 4, master := 5 } (by decide) (by decide) (by decide) (by decide)
  exact ⟨p, h1, h3⟩

/-- C7 counterexample: on the matching-input reuse path of the `Ready` host,
the master child `setInput` delivery for descriptor 1 rejects, yet the host
`setInput` resolves successfully — the reuse branch of `updateInput` returns
without the child promises, so the failure is discarded rather than
propagated. -/
theorem c7_counterexample :
    reuseChildFail.2.2 =
      SetInputStart.reused (Except.ok ()) (Except.ok ())
        (Except.error (Err.childSetInputFailed 1)) := by
  decide

/-- C7 (amended): on the non-matching creation path a child `setInput`
rejection inside `_createEditor` does propagate — the overall `setInput`
fails with that error; on the matching reuse path, however, the child
`setInput` outcomes are discarded and the host `setInput` resolves
successfully regardless. -/
theorem c7_childFailurePropagationSplit (env : Env) (h : Host) (p : Pending)
    (dd : Desc) (cd : Option Nat) (ed : Nat) (wd : Bool)
    (hd : p.detailsSpec = SideSpec.create dd cd ed wd)
    (hfail : env.childSetInputOk dd = false)
    (env2 : Env) (h2 : Host) (i : SideBySideEditorInput)
    (hm : matchesInput i h2.input = true) :
    (resolvePending env h p).2.2 = Except.error (Err.childSetInputFailed dd) ∧
    ∃ r1 r2, (setInput env2 h2 i).2.2 = SetInputStart.reused (Except.ok ()) r1 r2 := by
  constructor
  · obtain ⟨ds, ms⟩ := p
    dsimp only at hd
    subst hd
    cases ms <;> simp [resolvePending, createEditorResolve, hfail]
  · exact ⟨_, _, by rw [setInput_matching env2 h2 i hm]⟩

/-- Witness for C7: the amended statement applied to a pending whose details
child delivery for descriptor 1 rejects, and to the matching reuse delivery
of `inputA` on the `Ready` host. -/
theorem c7_witness :
    (resolvePending envMasterChildFails initialHost
        { detailsSpec := SideSpec.create 1 (some 0) 9 false,
          masterSpec := SideSpec.noHandler 7 }).2.2 =
      Except.error (Err.childSetInputFailed 1) ∧
    ∃ r1 r2, (setInput envAll readyHostA inputA).2.2 =
      SetInputStart.reused (Except.ok ()) r1 r2 := by
  exact c7_childFailurePropagationSplit envMasterChildFails initialHost
    { detailsSpec := SideSpec.create 1 (some 0) 9 false,
      masterSpec := SideSpec.noHandler 7 }
    1 (some 0) 9 false rfl (by decide) envAll readyHostA inputA (by decide)

end SideBySide
